import Mathlib

/-!
Verification of the `otel` package: a thin configuration and factory layer
over the OpenTelemetry Go SDK.  The package selects between two output
destinations (a local stream writer reached through `stdouttrace`, or a
remote collector reached through `otlptracegrpc`), builds a resource
descriptor from configuration, and wires these into a tracer provider.

The embedding below translates the package's own code.  Calls into the
external SDK (`resource.New`, `stdouttrace.New`, `otlptrace.New`) are
modelled by an oracle structure `SDK` carrying their outcomes, and the
process-wide default provider set by `otel.SetTracerProvider` is modelled
by explicit state passing of a `GlobalState` value.  The Go functions
return a `(value, error)` pair of pointers; that is kept as a pair of
`Option`s so that the mutual exclusion of the two components is a theorem,
not an artifact of the encoding.
-/

deriving instance DecidableEq for Except

namespace Otel

/-- Attribute set of a resource: key/value string pairs kept sorted by key,
mirroring the SDK's sorted attribute sets. -/
abbrev Attrs := List (String × String)

/-- A resource descriptor (`go.opentelemetry.io/otel/sdk/resource.Resource`):
a schema URL together with a sorted attribute set. -/
structure Resource where
  schemaUrl : String
  attrs : Attrs
  deriving DecidableEq

/-- Lexicographic order on character lists, by code point. -/
def charListLt : List Char → List Char → Bool
  | [], [] => false
  | [], _ :: _ => true
  | _ :: _, [] => false
  | a :: as, b :: bs =>
    if a.toNat < b.toNat then true
    else if b.toNat < a.toNat then false
    else charListLt as bs

/-- Lexicographic order on strings, as Go compares the attribute keys. -/
def strLt (a b : String) : Bool := charListLt a.data b.data

/-- Insert a key/value pair into a key-sorted attribute list, overriding an
existing entry with the same key (the SDK attribute sets are last-value-wins
sorted sets). -/
def insertAttr (k v : String) : Attrs → Attrs
  | [] => [(k, v)]
  | (k', v') :: rest =>
    if k = k' then (k, v) :: rest
    else if strLt k k' then (k, v) :: (k', v') :: rest
    else (k', v') :: insertAttr k v rest

/-- Build a sorted attribute set from a list of pairs. -/
def mkAttrSet (l : List (String × String)) : Attrs :=
  l.foldl (fun acc kv => insertAttr kv.1 kv.2 acc) []

/-- Model of `resource.NewWithAttributes(schemaURL, attrs...)`. -/
def resourceNewWithAttributes (schemaUrl : String) (l : List (String × String)) : Resource :=
  ⟨schemaUrl, mkAttrSet l⟩

/-- Model of `resource.Merge(a, b)` from the SDK: attributes of `b` override
those of `a`; the merge fails when both resources carry a non-empty schema URL
and the two URLs differ, and otherwise keeps the non-empty one. -/
def resourceMerge (a b : Resource) : Except String Resource :=
  if a.schemaUrl ≠ "" ∧ b.schemaUrl ≠ "" ∧ a.schemaUrl ≠ b.schemaUrl then
    Except.error "conflicting Schema URL"
  else
    Except.ok ⟨if b.schemaUrl ≠ "" then b.schemaUrl else a.schemaUrl,
      b.attrs.foldl (fun acc kv => insertAttr kv.1 kv.2 acc) a.attrs⟩

/-- Result of `resource.New(ctx)` called with no options, as in
`Config.resource`: no detectors run, so the returned resource is empty and
carries no schema URL. -/
def resourceNewDefault : Resource := ⟨"", []⟩

/-- Schema URL of `semconv` v1.4.0, imported by the package. -/
def semconvSchemaURL : String := "https://opentelemetry.io/schemas/1.4.0"

/-- Key of `semconv.ServiceNameKey`. -/
def serviceNameKey : String := "service.name"

/-- Key of `semconv.ServiceVersionKey`. -/
def serviceVersionKey : String := "service.version"

/-- Key of `semconv.ServiceInstanceIDKey`. -/
def serviceInstanceIDKey : String := "service.instance.id"

/-- Reference to an output sink, standing for the `io.Writer` interface value
held in `Config.Writer`; `none` models a nil writer. -/
abbrev Sink := String

/-- The `Config` struct: identity fields, the optional stream sink used by the
local-stream output, and the credential and endpoint used by the remote
output. -/
structure Config where
  ServiceName : String
  ServiceVersion : String
  ServiceInstanceID : String
  Writer : Option Sink
  APIKey : String
  URL : String
  deriving DecidableEq

/-- The `Config.resource` method: merge the default resource returned by
`resource.New(ctx)` (whose error the code discards) with a resource holding
the three identity attributes, wrapping a merge failure.  `defaultResource`
is the value produced by the external `resource.New(ctx)` call. -/
def Config.resource (c : Config) (defaultResource : Resource) : Except String Resource :=
  match resourceMerge defaultResource
      (resourceNewWithAttributes semconvSchemaURL
        [(serviceNameKey, c.ServiceName),
         (serviceVersionKey, c.ServiceVersion),
         (serviceInstanceIDKey, c.ServiceInstanceID)]) with
  | Except.error e => Except.error ("could not create resource: " ++ e)
  | Except.ok r => Except.ok r

/-- Oracle for the external SDK calls made during pipeline construction: the
resource produced by `resource.New(ctx)`, and the outcomes of the two exporter
constructors (`stdouttrace.New` and `otlptrace.New`), where `some e` means the
constructor failed with error text `e` and `none` means it succeeded. -/
structure SDK where
  defaultResource : Resource
  stdoutNewErr : Option String
  otlpNewErr : Option String
  deriving DecidableEq

/-- Batch span processor options, in milliseconds for the two timeouts. -/
structure BatcherOptions where
  batchTimeoutMs : Nat
  exportTimeoutMs : Nat
  maxQueueSize : Nat
  maxExportBatchSize : Nat
  deriving DecidableEq

/-- SDK defaults used when `trace.WithBatcher` is given no options: 5s batch
timeout, 30s export timeout, queue size 2048, export batch size 512. -/
def defaultBatcherOptions : BatcherOptions := ⟨5000, 30000, 2048, 512⟩

/-- Sampling policy recorded by the provider: the SDK default
(parent-based always-sample, when `trace.WithSampler` is absent) or the
explicit `trace.AlwaysSample()`. -/
inductive Sampler where
  | parentBasedAlwaysSample
  | alwaysSample
  deriving DecidableEq

/-- Configuration of the `otlptracegrpc` client as assembled by
`grpcOutput.ExportPipeline`: endpoint, TLS credentials from
`credentials.NewClientTLSFromCert(pool, serverNameOverride)`, reconnection
period and timeout in seconds, the dial-blocking option, headers, and the
compressor name. -/
structure GRPCClientConfig where
  endpoint : String
  tlsCertPool : Option String
  tlsServerNameOverride : String
  reconnectionPeriodSec : Nat
  dialBlock : Bool
  timeoutSec : Nat
  headers : List (String × String)
  compressor : String
  deriving DecidableEq

/-- The export adapter owned by a tracer provider: either the stdout trace
exporter bound to a writer, or the OTLP gRPC exporter with its client
configuration. -/
inductive ExporterKind where
  | stdout (writer : Option Sink)
  | otlpGrpc (client : GRPCClientConfig)
  deriving DecidableEq

/-- A constructed `trace.TracerProvider`: its export adapter, batching
options, sampler, and the resource it was given (`none` when the discarded
`Config.resource` error left the resource nil). -/
structure TracerProvider where
  exporter : ExporterKind
  batcher : BatcherOptions
  sampler : Sampler
  res : Option Resource
  deriving DecidableEq

/-- An error returned by `ExportPipeline`: the wrapping message added with
`fmt.Errorf("...: %w", err)` and the wrapped underlying cause. -/
structure ExporterConstructionError where
  message : String
  cause : String
  deriving DecidableEq

/-- The process-wide default tracer provider written by
`otel.SetTracerProvider`; `none` means none installed. -/
abbrev GlobalState := Option TracerProvider

/-- The `ioOutput.ExportPipeline` method: build the stdout exporter over the
configured writer (failing with a wrapped error when `stdouttrace.New`
fails), discard the `Config.resource` error, assemble a provider with default
batching, and install it as the global provider. -/
def ioOutput.ExportPipeline (c : Config) (sdk : SDK) (g : GlobalState) :
    (Option TracerProvider × Option ExporterConstructionError) × GlobalState :=
  match sdk.stdoutNewErr with
  | some e => ((none, some ⟨"could not create exporter", e⟩), g)
  | none =>
    let res := (c.resource sdk.defaultResource).toOption
    let tracerProvider : TracerProvider :=
      ⟨ExporterKind.stdout c.Writer, defaultBatcherOptions,
        Sampler.parentBasedAlwaysSample, res⟩
    ((some tracerProvider, none), some tracerProvider)

/-- The `grpcOutput.ExportPipeline` method: assemble the fixed gRPC client
options (endpoint from config, TLS from the default certificate pool,
2s reconnection period, blocking dial, 30s timeout, an `api-key` header from
config, gzip compression), build the OTLP exporter (failing with a wrapped
error when `otlptrace.New` fails), discard the `Config.resource` error,
assemble a provider with the fixed batching ceilings and always-sample
policy, and install it as the global provider. -/
def grpcOutput.ExportPipeline (c : Config) (sdk : SDK) (g : GlobalState) :
    (Option TracerProvider × Option ExporterConstructionError) × GlobalState :=
  let headers : List (String × String) := [("api-key", c.APIKey)]
  let clientConfig : GRPCClientConfig :=
    ⟨c.URL, none, "", 2, true, 30, headers, "gzip"⟩
  match sdk.otlpNewErr with
  | some e => ((none, some ⟨"creating OTLP trace exporter", e⟩), g)
  | none =>
    let res := (c.resource sdk.defaultResource).toOption
    let tracerProvider : TracerProvider :=
      ⟨ExporterKind.otlpGrpc clientConfig,
        ⟨5000, 5000, 10000, 100000⟩, Sampler.alwaysSample, res⟩
    ((some tracerProvider, none), some tracerProvider)

/-- The two implementations of the `Exporter` interface, each holding the
embedded `*Config`. -/
inductive Exporter where
  | ioOutput (config : Config)
  | grpcOutput (config : Config)
  deriving DecidableEq

/-- Dispatch of the `Exporter` interface method `ExportPipeline`. -/
def Exporter.ExportPipeline : Exporter → SDK → GlobalState →
    (Option TracerProvider × Option ExporterConstructionError) × GlobalState
  | Exporter.ioOutput c => ioOutput.ExportPipeline c
  | Exporter.grpcOutput c => grpcOutput.ExportPipeline c

/-- `OutputType` is a Go `int`; only the two declared constants are
recognized. -/
abbrev OutputType := Int

/-- The `IO` output-type constant (`iota` value 0). -/
def ioOutputType : OutputType := 0

/-- The `GRPC` output-type constant (`iota` value 1). -/
def grpcOutputType : OutputType := 1

/-- The `NewExporter` factory: a switch on the output type returning the
matching implementation, and nil for any other selector value. -/
def NewExporter (outputType : OutputType) (c : Config) : Option Exporter :=
  if outputType = ioOutputType then some (Exporter.ioOutput c)
  else if outputType = grpcOutputType then some (Exporter.grpcOutput c)
  else none

/-- A process environment: variable bindings; `os.Getenv` returns the empty
string for an absent variable. -/
abbrev Env := List (String × String)

/-- Model of `os.Getenv`: the bound value, or the empty string when the
variable is absent. -/
def osGetenv (env : Env) (k : String) : String :=
  (List.lookup k env).getD ""

/-- The five environment variables read by `NewENVConfig`. -/
def otelEnvVars : List String :=
  ["OTEL_SERVICE_NAME", "OTEL_SERVICE_VERSION", "OTEL_SERVICE_ID",
   "OTEL_GRPC_API_KEY", "OTEL_GRPC_URL"]

/-- The `NewENVConfig` constructor: read the five variables, leave the writer
nil, perform no validation. -/
def NewENVConfig (env : Env) : Config :=
  { ServiceName := osGetenv env "OTEL_SERVICE_NAME"
    ServiceVersion := osGetenv env "OTEL_SERVICE_VERSION"
    ServiceInstanceID := osGetenv env "OTEL_SERVICE_ID"
    Writer := none
    APIKey := osGetenv env "OTEL_GRPC_API_KEY"
    URL := osGetenv env "OTEL_GRPC_URL" }

/-- A sample configuration, with the values the package tests place in the
environment. -/
def sampleConfig : Config :=
  { ServiceName := "sampleServiceName"
    ServiceVersion := "v1.0.0.0"
    ServiceInstanceID := "sampleServiceID"
    Writer := none
    APIKey := "sampleApiKey"
    URL := "otlp.nr-data.net:4317" }

/-- An oracle on which every external SDK call succeeds. -/
def okSDK : SDK := ⟨resourceNewDefault, none, none⟩

/-- An oracle whose default resource carries a schema URL conflicting with the
semconv schema URL, making the resource merge fail. -/
def conflictSDK : SDK := ⟨⟨"urn:example:other-schema", []⟩, none, none⟩

/-- An oracle on which both exporter constructors fail. -/
def failSDK : SDK := ⟨resourceNewDefault, some "bad writer", some "bad endpoint"⟩

/-- C1: For every configuration with identity fields A (service name),
B (service version), C (service instance id), the resource descriptor produced
by `Config.resource` (with the empty default resource that `resource.New(ctx)`
returns) contains exactly the attributes A, B, C among its entries, in the
merged key-sorted order: instance id first, then name, then version. -/
theorem config_resource_exact_attributes (c : Config) :
    c.resource resourceNewDefault =
      Except.ok ⟨semconvSchemaURL,
        [(serviceInstanceIDKey, c.ServiceInstanceID),
         (serviceNameKey, c.ServiceName),
         (serviceVersionKey, c.ServiceVersion)]⟩ := rfl

/-- C10: `Config.resource` always places the three identity attribute keys in
the descriptor, whatever the field values are; in particular a configuration
whose identity fields are all empty strings yields the three attributes with
empty-string values, not absent attributes. -/
theorem config_resource_keys_always_present (c : Config) :
    (c.resource resourceNewDefault).map (fun r => r.attrs.map Prod.fst) =
      Except.ok [serviceInstanceIDKey, serviceNameKey, serviceVersionKey] ∧
    Config.resource ⟨"", "", "", none, "", ""⟩ resourceNewDefault =
      Except.ok ⟨semconvSchemaURL,
        [(serviceInstanceIDKey, ""), (serviceNameKey, ""), (serviceVersionKey, "")]⟩ :=
  ⟨rfl, rfl⟩

/-- C2: For every output-type selector other than `IO` and `GRPC`, and every
configuration, `NewExporter` returns a nil handle (and, being a total
function, neither errors, panics, nor blocks). -/
theorem newExporter_unknown_kind (t : OutputType) (c : Config)
    (h1 : t ≠ ioOutputType) (h2 : t ≠ grpcOutputType) :
    NewExporter t c = none := by
  simp [NewExporter, h1, h2]

/-- Witness for C2 at the concrete selector value 2. -/
theorem newExporter_unknown_kind_witness :
    NewExporter 2 sampleConfig = none :=
  newExporter_unknown_kind 2 sampleConfig (by decide) (by decide)

/-- C3: whenever `otlptrace.New` succeeds, `grpcOutput.ExportPipeline` builds
the transport client with exactly the fixed policies — TLS from the default
certificate pool, 2s reconnection period, 30s timeout, gzip compression, and
an `api-key` header carrying the configuration's API key — and assembles a
provider with queue capacity 10000, max export batch size 100000, 5s batch
timeout, 5s export timeout, and an always-sample policy. -/
theorem grpc_pipeline_fixed_policies (c : Config) (sdk : SDK) (g : GlobalState)
    (h : sdk.otlpNewErr = none) :
    (grpcOutput.ExportPipeline c sdk g).1 =
      (some ⟨ExporterKind.otlpGrpc
               ⟨c.URL, none, "", 2, true, 30, [("api-key", c.APIKey)], "gzip"⟩,
             ⟨5000, 5000, 10000, 100000⟩, Sampler.alwaysSample,
             (c.resource sdk.defaultResource).toOption⟩, none) := by
  simp [grpcOutput.ExportPipeline, h]

/-- Witness for C3 at the sample configuration and the all-success oracle. -/
theorem grpc_pipeline_fixed_policies_witness :
    (grpcOutput.ExportPipeline sampleConfig okSDK none).1 =
      (some ⟨ExporterKind.otlpGrpc
               ⟨sampleConfig.URL, none, "", 2, true, 30,
                [("api-key", sampleConfig.APIKey)], "gzip"⟩,
             ⟨5000, 5000, 10000, 100000⟩, Sampler.alwaysSample,
             (sampleConfig.resource okSDK.defaultResource).toOption⟩, none) :=
  grpc_pipeline_fixed_policies sampleConfig okSDK none rfl

/-- C4: for both output kinds and every configuration and oracle,
`ExportPipeline` returns either a present handle with an absent error, or an
absent handle with a present `ExporterConstructionError` wrapping the failing
constructor's underlying cause — never both and never neither. -/
theorem exportPipeline_exclusive_outcome (e : Exporter) (sdk : SDK) (g : GlobalState) :
    (∃ tp, (e.ExportPipeline sdk g).1 = (some tp, none)) ∨
    (∃ err : ExporterConstructionError,
      (e.ExportPipeline sdk g).1 = (none, some err) ∧
      some err.cause = (match e with
        | Exporter.ioOutput _ => sdk.stdoutNewErr
        | Exporter.grpcOutput _ => sdk.otlpNewErr)) := by
  obtain ⟨dr, so, oo⟩ := sdk
  cases e with
  | ioOutput c =>
    cases so with
    | none => exact Or.inl ⟨_, rfl⟩
    | some msg => exact Or.inr ⟨⟨"could not create exporter", msg⟩, rfl, rfl⟩
  | grpcOutput c =>
    cases oo with
    | none => exact Or.inl ⟨_, rfl⟩
    | some msg => exact Or.inr ⟨⟨"creating OTLP trace exporter", msg⟩, rfl, rfl⟩

/-- C5: `NewENVConfig` is a total function of the environment (no failure
mode, no side effects), its result depends only on the five named variables,
and when all five are absent every string field resolves to the empty string
with a nil writer. -/
theorem newENVConfig_resolution :
    (∀ e1 e2 : Env, (∀ k ∈ otelEnvVars, osGetenv e1 k = osGetenv e2 k) →
        NewENVConfig e1 = NewENVConfig e2) ∧
    (∀ e : Env, (∀ k ∈ otelEnvVars, List.lookup k e = none) →
        NewENVConfig e = ⟨"", "", "", none, "", ""⟩) := by
  constructor
  · intro e1 e2 h
    have h1 := h "OTEL_SERVICE_NAME" (by simp [otelEnvVars])
    have h2 := h "OTEL_SERVICE_VERSION" (by simp [otelEnvVars])
    have h3 := h "OTEL_SERVICE_ID" (by simp [otelEnvVars])
    have h4 := h "OTEL_GRPC_API_KEY" (by simp [otelEnvVars])
    have h5 := h "OTEL_GRPC_URL" (by simp [otelEnvVars])
    simp [NewENVConfig, h1, h2, h3, h4, h5]
  · intro e h
    have h1 := h "OTEL_SERVICE_NAME" (by simp [otelEnvVars])
    have h2 := h "OTEL_SERVICE_VERSION" (by simp [otelEnvVars])
    have h3 := h "OTEL_SERVICE_ID" (by simp [otelEnvVars])
    have h4 := h "OTEL_GRPC_API_KEY" (by simp [otelEnvVars])
    have h5 := h "OTEL_GRPC_URL" (by simp [otelEnvVars])
    simp [NewENVConfig, osGetenv, h1, h2, h3, h4, h5]

/-- Witness for C5: two environments agreeing on the five variables resolve
to the same configuration, and an environment binding none of them resolves
to the all-empty configuration. -/
theorem newENVConfig_resolution_witness :
    NewENVConfig [("OTEL_SERVICE_NAME", "svc"), ("HOME", "root")] =
      NewENVConfig [("OTEL_SERVICE_NAME", "svc"), ("TERM", "xterm")] ∧
    NewENVConfig [("HOME", "root")] = ⟨"", "", "", none, "", ""⟩ :=
  ⟨newENVConfig_resolution.1 _ _ (by decide),
   newENVConfig_resolution.2 _ (by decide)⟩

/-- C6: for both output kinds, whenever `ExportPipeline` returns a provider
successfully, that same provider is installed as the process-wide default
provider. -/
theorem success_installs_global_provider (e : Exporter) (sdk : SDK)
    (g : GlobalState) (tp : TracerProvider)
    (h : (e.ExportPipeline sdk g).1.1 = some tp) :
    (e.ExportPipeline sdk g).2 = some tp := by
  obtain ⟨dr, so, oo⟩ := sdk
  cases e with
  | ioOutput c =>
    cases so with
    | none => exact h
    | some msg => exact absurd h (by simp [Exporter.ExportPipeline, ioOutput.ExportPipeline])
  | grpcOutput c =>
    cases oo with
    | none => exact h
    | some msg => exact absurd h (by simp [Exporter.ExportPipeline, grpcOutput.ExportPipeline])

/-- Witness for C6: the provider built for the local-stream kind on the
sample configuration is the one installed globally. -/
theorem success_installs_global_provider_witness :
    ((Exporter.ioOutput sampleConfig).ExportPipeline okSDK none).2 =
      some ⟨ExporterKind.stdout none, defaultBatcherOptions,
            Sampler.parentBasedAlwaysSample,
            some ⟨semconvSchemaURL,
              [(serviceInstanceIDKey, "sampleServiceID"),
               (serviceNameKey, "sampleServiceName"),
               (serviceVersionKey, "v1.0.0.0")]⟩⟩ :=
  success_installs_global_provider (Exporter.ioOutput sampleConfig) okSDK none _ rfl

/-- C7: an error from the resource-merge step is swallowed: when
`Config.resource` fails but the exporter constructor succeeds, both
`ExportPipeline` implementations still return a provider with no error,
the provider merely carrying a nil resource. -/
theorem merge_error_swallowed (c : Config) (sdk : SDK) (g : GlobalState)
    (msg : String) (hm : c.resource sdk.defaultResource = Except.error msg) :
    (sdk.stdoutNewErr = none →
      (ioOutput.ExportPipeline c sdk g).1 =
        (some ⟨ExporterKind.stdout c.Writer, defaultBatcherOptions,
               Sampler.parentBasedAlwaysSample, none⟩, none)) ∧
    (sdk.otlpNewErr = none →
      (grpcOutput.ExportPipeline c sdk g).1 =
        (some ⟨ExporterKind.otlpGrpc
                 ⟨c.URL, none, "", 2, true, 30, [("api-key", c.APIKey)], "gzip"⟩,
               ⟨5000, 5000, 10000, 100000⟩, Sampler.alwaysSample, none⟩, none)) := by
  constructor
  · intro h
    simp [ioOutput.ExportPipeline, h, hm, Except.toOption]
  · intro h
    simp [grpcOutput.ExportPipeline, h, hm, Except.toOption]

/-- Witness for C7 at an oracle whose default resource has a conflicting
schema URL, on which the merge concretely fails. -/
theorem merge_error_swallowed_witness :
    (ioOutput.ExportPipeline sampleConfig conflictSDK none).1 =
      (some ⟨ExporterKind.stdout sampleConfig.Writer, defaultBatcherOptions,
             Sampler.parentBasedAlwaysSample, none⟩, none) ∧
    (grpcOutput.ExportPipeline sampleConfig conflictSDK none).1 =
      (some ⟨ExporterKind.otlpGrpc
               ⟨sampleConfig.URL, none, "", 2, true, 30,
                [("api-key", sampleConfig.APIKey)], "gzip"⟩,
             ⟨5000, 5000, 10000, 100000⟩, Sampler.alwaysSample, none⟩, none) :=
  ⟨(merge_error_swallowed sampleConfig conflictSDK none
      "could not create resource: conflicting Schema URL" rfl).1 rfl,
   (merge_error_swallowed sampleConfig conflictSDK none
      "could not create resource: conflicting Schema URL" rfl).2 rfl⟩

/-- C8: construction never fails merely because fields irrelevant to the
selected output kind are unset: the local-stream pipeline succeeds with empty
API key and endpoint, and the remote-RPC pipeline succeeds with a nil sink
reference, provided the respective external constructor succeeds. -/
theorem irrelevant_fields_may_be_empty (c : Config) (sdk : SDK) (g : GlobalState) :
    (c.APIKey = "" → c.URL = "" → sdk.stdoutNewErr = none →
      ∃ tp, (ioOutput.ExportPipeline c sdk g).1 = (some tp, none)) ∧
    (c.Writer = none → sdk.otlpNewErr = none →
      ∃ tp, (grpcOutput.ExportPipeline c sdk g).1 = (some tp, none)) := by
  constructor
  · intro _ _ h
    refine ⟨⟨ExporterKind.stdout c.Writer, defaultBatcherOptions,
      Sampler.parentBasedAlwaysSample, (c.resource sdk.defaultResource).toOption⟩, ?_⟩
    simp [ioOutput.ExportPipeline, h]
  · intro _ h
    refine ⟨⟨ExporterKind.otlpGrpc
      ⟨c.URL, none, "", 2, true, 30, [("api-key", c.APIKey)], "gzip"⟩,
      ⟨5000, 5000, 10000, 100000⟩, Sampler.alwaysSample,
      (c.resource sdk.defaultResource).toOption⟩, ?_⟩
    simp [grpcOutput.ExportPipeline, h]

/-- Witness for C8: a configuration with empty remote fields for the
local-stream kind, and the sample configuration (nil writer) for the
remote-RPC kind. -/
theorem irrelevant_fields_may_be_empty_witness :
    (∃ tp, (ioOutput.ExportPipeline ⟨"n", "v", "i", some "buf", "", ""⟩ okSDK none).1 =
      (some tp, none)) ∧
    (∃ tp, (grpcOutput.ExportPipeline sampleConfig okSDK none).1 = (some tp, none)) :=
  ⟨(irrelevant_fields_may_be_empty ⟨"n", "v", "i", some "buf", "", ""⟩ okSDK none).1
      rfl rfl rfl,
   (irrelevant_fields_may_be_empty sampleConfig okSDK none).2 rfl rfl⟩

/-- C9: when `ExportPipeline` fails (nil handle, present error), the
process-wide default provider is left unchanged. -/
theorem failure_leaves_global_unchanged (e : Exporter) (sdk : SDK) (g : GlobalState)
    (h : (e.ExportPipeline sdk g).1.1 = none) :
    (e.ExportPipeline sdk g).2 = g := by
  obtain ⟨dr, so, oo⟩ := sdk
  cases e with
  | ioOutput c =>
    cases so with
    | none => exact absurd h (by simp [Exporter.ExportPipeline, ioOutput.ExportPipeline])
    | some msg => rfl
  | grpcOutput c =>
    cases oo with
    | none => exact absurd h (by simp [Exporter.ExportPipeline, grpcOutput.ExportPipeline])
    | some msg => rfl

/-- Witness for C9: a failing `stdouttrace.New` leaves the (empty) global
provider state untouched. -/
theorem failure_leaves_global_unchanged_witness :
    ((Exporter.ioOutput sampleConfig).ExportPipeline failSDK none).2 = none :=
  failure_leaves_global_unchanged (Exporter.ioOutput sampleConfig) failSDK none rfl

end Otel
